import Mathlib

/-!
Verification of the wan22-video-generator backend against its specification.

The Python sources under `backend/` are shallowly embedded: dictionaries
become ordered association lists (Python dicts preserve insertion order),
JSON values become the inductive `JVal`, SQL row updates become pure
functions on record lists, and every external effect (HTTP call to the
Renderer, filesystem probe, random draw, clock) becomes an explicit
oracle argument.  Floating point literals that are only carried as inert
graph constants (strength 1.0, shift 5.0) are embedded by value as
integers, since the code never computes with them.
-/

namespace Wan22

/-- A JSON value as it occurs in ComfyUI API workflow graphs: a string, a
number, or a `[nodeId, slot]` link to another node's output. -/
inductive JVal where
  | str (v : String)
  | int (v : Int)
  | link (id : String) (slot : Nat)
  deriving DecidableEq, Repr

/-- Ordered association list standing for a Python `dict` (insertion order
preserved, as Python guarantees). -/
abbrev Dict (α : Type) := List (String × α)

/-- Lookup, `d[k]` / `d.get(k)`. -/
def getKey {α : Type} : Dict α → String → Option α
  | [], _ => none
  | (k', v') :: rest, k => if k' = k then some v' else getKey rest k

/-- Assignment `d[k] = v`: replaces in place when the key exists, otherwise
appends (Python dict semantics). -/
def setKey {α : Type} : Dict α → String → α → Dict α
  | [], k, v => [(k, v)]
  | (k', v') :: rest, k, v =>
      if k' = k then (k, v) :: rest else (k', v') :: setKey rest k v

/-- One node of a ComfyUI API workflow: `class_type`, `inputs`, optional
`_meta.title`. -/
structure WNode where
  class_type : String
  inputs : Dict JVal
  title : Option String := none
  deriving DecidableEq, Repr

/-- A workflow graph: node-id keyed dict of nodes
(`workflow_templates.py`). -/
abbrev Workflow := Dict WNode

/-- `workflow[nid]["inputs"][key] = v`.  All uses in the source hit node
ids that are present in the graph; a missing id leaves the graph
unchanged (Python would raise `KeyError`, which never happens on the
template's fixed ids). -/
def setInput (wf : Workflow) (nid key : String) (v : JVal) : Workflow :=
  match getKey wf nid with
  | none => wf
  | some node => setKey wf nid { node with inputs := setKey node.inputs key v }

/-- `workflow.get(nid).inputs.get(key)`. -/
def getInput (wf : Workflow) (nid key : String) : Option JVal :=
  match getKey wf nid with
  | none => none
  | some node => getKey node.inputs key

/-- The constant `WAN_I2V_API_WORKFLOW` template
(`workflow_templates.py` lines 24-180), transcribed node for node in
source order. -/
def WAN_I2V_API_WORKFLOW : Workflow :=
  [ ("84", { class_type := "CLIPLoader",
             inputs := [("clip_name", .str "umt5_xxl_fp8_e4m3fn_scaled.safetensors"),
                        ("type", .str "wan"), ("device", .str "default")] }),
    ("85", { class_type := "KSamplerAdvanced",
             inputs := [("add_noise", .str "disable"), ("noise_seed", .int 0),
                        ("control_after_generate", .str "fixed"), ("steps", .int 4),
                        ("cfg", .int 1), ("sampler_name", .str "euler"),
                        ("scheduler", .str "simple"), ("start_at_step", .int 2),
                        ("end_at_step", .int 4),
                        ("return_with_leftover_noise", .str "disable"),
                        ("model", .link "103" 0), ("positive", .link "98" 0),
                        ("negative", .link "98" 1), ("latent_image", .link "86" 0)] }),
    ("86", { class_type := "KSamplerAdvanced",
             inputs := [("add_noise", .str "enable"), ("noise_seed", .int 138073435077572),
                        ("control_after_generate", .str "randomize"), ("steps", .int 4),
                        ("cfg", .int 1), ("sampler_name", .str "euler"),
                        ("scheduler", .str "simple"), ("start_at_step", .int 0),
                        ("end_at_step", .int 2),
                        ("return_with_leftover_noise", .str "enable"),
                        ("model", .link "104" 0), ("positive", .link "98" 0),
                        ("negative", .link "98" 1), ("latent_image", .link "98" 2)] }),
    ("87", { class_type := "VAEDecode",
             inputs := [("samples", .link "85" 0), ("vae", .link "90" 0)] }),
    ("89", { class_type := "CLIPTextEncode",
             inputs := [("text", .str "色调艳丽，过曝，静态，细节模糊不清，字幕，风格，作品，画作，画面，静止，整体发灰，最差质量，低质量，JPEG压缩残留，丑陋的，残缺的，多余的手指，画得不好的手部，画得不好的脸部，畸形的，毁容的，形态畸形的肢体，手指融合，静止不动的画面，杂乱的背景，三条腿，背景人很多，倒着走"), ("clip", .link "84" 0)] }),
    ("90", { class_type := "VAELoader",
             inputs := [("vae_name", .str "wan_2.1_vae.safetensors")] }),
    ("93", { class_type := "CLIPTextEncode",
             inputs := [("text", .str "The white dragon warrior stands still, eyes full of determination and strength. The camera slowly moves closer or circles around the warrior, highlighting the powerful presence and heroic spirit of the character."), ("clip", .link "84" 0)] }),
    ("94", { class_type := "CreateVideo",
             inputs := [("fps", .int 16), ("images", .link "87" 0)] }),
    ("95", { class_type := "UNETLoader",
             inputs := [("unet_name", .str "wan2.2_i2v_high_noise_14B_fp8_scaled.safetensors"),
                        ("weight_dtype", .str "default")] }),
    ("96", { class_type := "UNETLoader",
             inputs := [("unet_name", .str "wan2.2_i2v_low_noise_14B_fp8_scaled.safetensors"),
                        ("weight_dtype", .str "default")] }),
    ("97", { class_type := "LoadImage",
             inputs := [("image", .str "input-18.jpg"), ("upload", .str "image")] }),
    ("98", { class_type := "WanImageToVideo",
             inputs := [("width", .int 640), ("height", .int 640), ("length", .int 81),
                        ("batch_size", .int 1), ("positive", .link "93" 0),
                        ("negative", .link "89" 0), ("vae", .link "90" 0),
                        ("start_image", .link "97" 0)] }),
    ("101", { class_type := "LoraLoaderModelOnly",
              inputs := [("lora_name", .str "wan2.2_i2v_lightx2v_4steps_lora_v1_high_noise.safetensors"),
                         ("strength_model", .int 1), ("model", .link "95" 0)] }),
    ("102", { class_type := "LoraLoaderModelOnly",
              inputs := [("lora_name", .str "wan2.2_i2v_lightx2v_4steps_lora_v1_low_noise.safetensors"),
                         ("strength_model", .int 1), ("model", .link "96" 0)] }),
    ("103", { class_type := "ModelSamplingSD3",
              inputs := [("shift", .int 5), ("model", .link "102" 0)] }),
    ("104", { class_type := "ModelSamplingSD3",
              inputs := [("shift", .int 5), ("model", .link "101" 0)] }),
    ("108", { class_type := "SaveVideo",
              inputs := [("filename_prefix", .str "video/ComfyUI"),
                         ("format", .str "auto"), ("codec", .str "auto"),
                         ("video", .link "94" 0)] }) ]

/-- `LORA_NODE_IDS["high"]` (`workflow_templates.py:184`). -/
def LORA_HIGH_IDS : List String := ["118", "120"]

/-- `LORA_NODE_IDS["low"]` (`workflow_templates.py:184`). -/
def LORA_LOW_IDS : List String := ["119", "121"]

/-- Python truthiness of an optional string (`lora.get("high_file")`):
present and non-empty. -/
def truthy : Option String → Bool
  | none => false
  | some s => s != ""

/-- One element of the `loras` argument of the builder: a LoRA pair, each
side optional (`workflow_templates.py:226-229`).  The `*_weight` keys the
orchestrator also places in these dicts are never read by the builder and
are omitted. -/
structure LoraPair where
  high_file : Option String
  low_file : Option String
  deriving DecidableEq, Repr

/-- Keep only chars that are alphanumeric or `-`/`_`, replacing the rest
with `_` (`_sanitize_filename`, first step). -/
def sanitizeChar (c : Char) : Char :=
  if c.isAlphanum || c = '-' || c = '_' then c else '_'

/-- Collapse every run of underscores to a single underscore: the fixpoint
of the source's `while '__' in safe: safe = safe.replace('__', '_')`
loop. -/
def collapseUnd : List Char → List Char
  | [] => []
  | [c] => [c]
  | c1 :: c2 :: rest =>
      if c1 == '_' && c2 == '_' then collapseUnd ('_' :: rest)
      else c1 :: collapseUnd (c2 :: rest)
  termination_by l => l.length

/-- `safe.strip('_')`. -/
def stripUnd (l : List Char) : List Char :=
  ((l.dropWhile (· == '_')).reverse.dropWhile (· == '_')).reverse

/-- `_sanitize_filename` (`workflow_templates.py:190-197`). -/
def sanitize_filename (name : String) : String :=
  ⟨stripUnd (collapseUnd (name.data.map sanitizeChar))⟩

/-- The dynamic LoRA-node loop of the builder
(`workflow_templates.py:285-318`): walks the (filtered, truncated) pair
list with index `i`, emits a `LoraLoaderModelOnly` node per present side
wired to that side's current tail, and returns the graph together with
both final tails. -/
def addLoraNodes : Workflow → List LoraPair → Nat → String → String →
    Workflow × String × String
  | wf, [], _, lastHigh, lastLow => (wf, lastHigh, lastLow)
  | wf, l :: rest, i, lastHigh, lastLow =>
      let highId := LORA_HIGH_IDS.getD i "?"
      let lowId := LORA_LOW_IDS.getD i "?"
      let stepHigh : Workflow × String :=
        if truthy l.high_file then
          (setKey wf highId
            { class_type := "LoraLoaderModelOnly",
              inputs := [("lora_name", .str (l.high_file.getD "")),
                         ("strength_model", .int 1),
                         ("model", .link lastHigh 0)],
              title := some ("User LoRA " ++ toString (i + 1) ++ " High") }, highId)
        else (wf, lastHigh)
      let stepLow : Workflow × String :=
        if truthy l.low_file then
          (setKey stepHigh.1 lowId
            { class_type := "LoraLoaderModelOnly",
              inputs := [("lora_name", .str (l.low_file.getD "")),
                         ("strength_model", .int 1),
                         ("model", .link lastLow 0)],
              title := some ("User LoRA " ++ toString (i + 1) ++ " Low") }, lowId)
        else (stepHigh.1, lastLow)
      addLoraNodes stepLow.1 rest (i + 1) stepHigh.2 stepLow.2

/-- The per-segment scalar injections of
`workflow_templates.build_wan_i2v_workflow` (lines 243-270): start image,
prompts, dimensions, frame count, model names and seed, in source
order.  `seedVal` is the already-resolved seed value. -/
def buildPre (prompt negative_prompt : String) (width height frames : Int)
    (start_image_filename high_noise_model low_noise_model : String)
    (seedVal : Int) : Workflow :=
  let w1 := setInput WAN_I2V_API_WORKFLOW "97" "image" (.str start_image_filename)
  let w2 := setInput w1 "93" "text" (.str prompt)
  let w3 := if negative_prompt != "" then setInput w2 "89" "text" (.str negative_prompt) else w2
  let w4 := setInput w3 "98" "width" (.int width)
  let w5 := setInput w4 "98" "height" (.int height)
  let w6 := setInput w5 "98" "length" (.int frames)
  let w7 := setInput w6 "95" "unet_name" (.str high_noise_model)
  let w8 := setInput w7 "96" "unet_name" (.str low_noise_model)
  setInput w8 "86" "noise_seed" (.int seedVal)

/-- `workflow_templates.build_wan_i2v_workflow` (lines 200-341).  `rngSeed`
is the oracle for the `random.randint(0, 2**32 - 1)` draw taken only when
`seed` is `None`. -/
def build_wan_i2v_workflow (prompt negative_prompt : String)
    (width height frames : Int) (start_image_filename : String)
    (high_noise_model low_noise_model : String) (seed : Option Int)
    (loras : Option (List LoraPair)) (fps : Int) (outPfx : String)
    (rngSeed : Int) : Workflow :=
  let seedVal : Int := match seed with | some s => s | none => rngSeed
  let w9 := buildPre prompt negative_prompt width height frames
      start_image_filename high_noise_model low_noise_model seedVal
  let lorasL := (match loras with | some l => l | none => []).filter
      (fun (l : LoraPair) => truthy l.high_file || truthy l.low_file)
  let w10 :=
    if lorasL.isEmpty then w9
    else
      let res := addLoraNodes w9 (lorasL.take 2) 0 "95" "96"
      let wa := setInput res.1 "101" "model" (.link res.2.1 0)
      setInput wa "102" "model" (.link res.2.2 0)
  let w11 := setInput w10 "94" "fps" (.int fps)
  if outPfx != "" then
    setInput w11 "108" "filename_prefix" (.str (sanitize_filename outPfx))
  else
    setInput w11 "108" "filename_prefix" (.str "ComfyUI")

/-! Basic facts about the ordered-dict operations. -/

theorem getKey_setKey_eq {α : Type} (m : Dict α) (k : String) (v : α) :
    getKey (setKey m k v) k = some v := by
  induction m with
  | nil => simp [setKey, getKey]
  | cons hd tl ih =>
      obtain ⟨k', v'⟩ := hd
      by_cases h : k' = k
      · simp [setKey, h, getKey]
      · simp [setKey, h, getKey, ih]

theorem getKey_setKey_ne {α : Type} (m : Dict α) (k k' : String) (v : α)
    (h : k ≠ k') : getKey (setKey m k v) k' = getKey m k' := by
  induction m with
  | nil => simp [setKey, getKey, h]
  | cons hd tl ih =>
      obtain ⟨k0, v0⟩ := hd
      by_cases h0 : k0 = k
      · subst h0
        simp [setKey, getKey, h]
      · simp [setKey, h0, getKey, ih]

theorem getKey_setKey_isSome {α : Type} (m : Dict α) (k k' : String) (v : α)
    (h : (getKey m k').isSome) : (getKey (setKey m k v) k').isSome := by
  by_cases hk : k = k'
  · subst hk; simp [getKey_setKey_eq]
  · rwa [getKey_setKey_ne m k k' v hk]

theorem getInput_setInput_ne (wf : Workflow) (nid nid' key key' : String)
    (v : JVal) (h : nid ≠ nid') :
    getInput (setInput wf nid key v) nid' key' = getInput wf nid' key' := by
  unfold setInput getInput
  cases hw : getKey wf nid with
  | none => rfl
  | some node => rw [getKey_setKey_ne _ _ _ _ h]

theorem getKey_setInput_isSome (wf : Workflow) (nid nid' key : String)
    (v : JVal) (h : (getKey wf nid').isSome) :
    (getKey (setInput wf nid key v) nid').isSome := by
  unfold setInput
  cases hw : getKey wf nid with
  | none => exact h
  | some node => exact getKey_setKey_isSome _ _ _ _ h

theorem getInput_setInput_eq (wf : Workflow) (nid key : String) (v : JVal)
    (h : (getKey wf nid).isSome) :
    getInput (setInput wf nid key v) nid key = some v := by
  unfold setInput getInput
  cases hw : getKey wf nid with
  | none => rw [hw] at h; simp at h
  | some node => rw [getKey_setKey_eq]; simp [getKey_setKey_eq]

theorem getKey_setInput_ne (wf : Workflow) (nid nid' key : String)
    (v : JVal) (h : nid ≠ nid') :
    getKey (setInput wf nid key v) nid' = getKey wf nid' := by
  unfold setInput
  cases hw : getKey wf nid with
  | none => rfl
  | some node => rw [getKey_setKey_ne _ _ _ _ h]

theorem getKey_setInput_self (wf : Workflow) (nid key : String) (v : JVal) :
    getKey (setInput wf nid key v) nid =
      Option.map (fun n => { n with inputs := setKey n.inputs key v })
        (getKey wf nid) := by
  unfold setInput
  cases hw : getKey wf nid with
  | none => rw [hw]; rfl
  | some node => rw [getKey_setKey_eq]; rfl

/-- Node ids written by the scalar-injection part of the builder. -/
def preWriteIds : List String := ["97", "93", "89", "98", "95", "96", "86"]

theorem getKey_buildPre_ne (p np : String) (w h f : Int) (si hm lm : String)
    (sv : Int) (k : String) (hk : k ∉ preWriteIds) :
    getKey (buildPre p np w h f si hm lm sv) k =
      getKey WAN_I2V_API_WORKFLOW k := by
  have h97 : "97" ≠ k := fun e => hk (e ▸ (by decide : "97" ∈ preWriteIds))
  have h93 : "93" ≠ k := fun e => hk (e ▸ (by decide : "93" ∈ preWriteIds))
  have h89 : "89" ≠ k := fun e => hk (e ▸ (by decide : "89" ∈ preWriteIds))
  have h98 : "98" ≠ k := fun e => hk (e ▸ (by decide : "98" ∈ preWriteIds))
  have h95 : "95" ≠ k := fun e => hk (e ▸ (by decide : "95" ∈ preWriteIds))
  have h96 : "96" ≠ k := fun e => hk (e ▸ (by decide : "96" ∈ preWriteIds))
  have h86 : "86" ≠ k := fun e => hk (e ▸ (by decide : "86" ∈ preWriteIds))
  unfold buildPre
  rw [getKey_setInput_ne _ _ _ _ _ h86, getKey_setInput_ne _ _ _ _ _ h96,
      getKey_setInput_ne _ _ _ _ _ h95, getKey_setInput_ne _ _ _ _ _ h98,
      getKey_setInput_ne _ _ _ _ _ h98, getKey_setInput_ne _ _ _ _ _ h98]
  split
  · rw [getKey_setInput_ne _ _ _ _ _ h89, getKey_setInput_ne _ _ _ _ _ h93,
        getKey_setInput_ne _ _ _ _ _ h97]
  · rw [getKey_setInput_ne _ _ _ _ _ h93, getKey_setInput_ne _ _ _ _ _ h97]

theorem getKey_buildPre_isSome (p np : String) (w h f : Int)
    (si hm lm : String) (sv : Int) (k : String)
    (hk : (getKey WAN_I2V_API_WORKFLOW k).isSome) :
    (getKey (buildPre p np w h f si hm lm sv) k).isSome := by
  unfold buildPre
  split <;> (repeat apply getKey_setInput_isSome) <;> exact hk

theorem getInput_buildPre_86 (p np : String) (w h f : Int)
    (si hm lm : String) (sv : Int) :
    getInput (buildPre p np w h f si hm lm sv) "86" "noise_seed" =
      some (.int sv) := by
  unfold buildPre
  rw [getInput_setInput_eq]
  split <;> (repeat apply getKey_setInput_isSome) <;> decide

/-- The ids the LoRA loop may write (`118`/`120` for the high pass,
`119`/`121` for the low pass, `?` standing for an out-of-range index that
the bounded loop never reaches). -/
def loraWriteIds : List String := ["118", "119", "120", "121", "?"]

theorem lora_ids_mem (i : Nat) : LORA_HIGH_IDS.getD i "?" ∈ loraWriteIds ∧
    LORA_LOW_IDS.getD i "?" ∈ loraWriteIds := by
  match i with
  | 0 => decide
  | 1 => decide
  | n + 2 => simp [LORA_HIGH_IDS, LORA_LOW_IDS, loraWriteIds, List.getD]

theorem getKey_addLoraNodes_ne (t : List LoraPair) (i : Nat)
    (lh ll : String) (wf : Workflow) (k : String) (hk : k ∉ loraWriteIds) :
    getKey (addLoraNodes wf t i lh ll).1 k = getKey wf k := by
  induction t generalizing wf i lh ll with
  | nil => rfl
  | cons p rest ih =>
      have hhi := (lora_ids_mem i).1
      have hlo := (lora_ids_mem i).2
      have hne1 : LORA_HIGH_IDS.getD i "?" ≠ k := fun h => hk (h ▸ hhi)
      have hne2 : LORA_LOW_IDS.getD i "?" ≠ k := fun h => hk (h ▸ hlo)
      unfold addLoraNodes
      cases h1 : truthy p.high_file <;> cases h2 : truthy p.low_file <;>
        simp only [h1, h2, if_true, if_false, Bool.false_eq_true] <;>
        rw [ih] <;>
        (try rw [getKey_setKey_ne _ _ _ _ hne2]) <;>
        (try rw [getKey_setKey_ne _ _ _ _ hne1])

theorem getKey_addLoraNodes_isSome (t : List LoraPair) (i : Nat)
    (lh ll : String) (wf : Workflow) (k : String)
    (h : (getKey wf k).isSome) :
    (getKey (addLoraNodes wf t i lh ll).1 k).isSome := by
  induction t generalizing wf i lh ll with
  | nil => exact h
  | cons p rest ih =>
      unfold addLoraNodes
      cases h1 : truthy p.high_file <;> cases h2 : truthy p.low_file <;>
        simp only [h1, h2, if_true, if_false, Bool.false_eq_true] <;>
        apply ih <;> repeat apply getKey_setKey_isSome
      · exact h
      · exact h
      · exact h
      · exact h

theorem getInput_eq_of_getKey_eq (wf wf' : Workflow) (nid key : String)
    (h : getKey wf nid = getKey wf' nid) :
    getInput wf nid key = getInput wf' nid key := by
  unfold getInput; rw [h]

/-! Call compatibility between the orchestrator, the client wrapper and
the template builder.  A Python call with keyword arguments raises
`TypeError` when some keyword does not name a parameter of the callee
(none of these functions declares `**kwargs`). -/

/-- Named parameters of `ComfyUIClient.build_wan_i2v_workflow`
(`comfyui_client.py:231-245`), `self` excluded since it is bound by the
method call. -/
def clientBuilderParams : List String :=
  ["prompt", "negative_prompt", "width", "height", "frames",
   "start_image_filename", "high_noise_model", "low_noise_model", "seed",
   "high_lora", "low_lora", "fps"]

/-- Named parameters of `workflow_templates.build_wan_i2v_workflow`
(`workflow_templates.py:200-213`). -/
def templateBuilderParams : List String :=
  ["prompt", "negative_prompt", "width", "height", "frames",
   "start_image_filename", "high_noise_model", "low_noise_model", "seed",
   "loras", "fps", "output_prefix"]

/-- Keywords the orchestrator passes at the submission-path call
`client.build_wan_i2v_workflow(...)` (`queue_manager.py:498-515`). -/
def orchestratorCallKwargs : List String :=
  ["prompt", "negative_prompt", "width", "height", "frames",
   "start_image_filename", "high_noise_model", "low_noise_model", "seed",
   "loras", "fps", "output_prefix", "faceswap_enabled", "faceswap_image",
   "faceswap_faces_order", "faceswap_faces_index"]

/-- Keywords the client wrapper forwards to the template builder
(`comfyui_client.py:251-264`). -/
def clientDelegationKwargs : List String :=
  ["prompt", "negative_prompt", "width", "height", "frames",
   "start_image_filename", "high_noise_model", "low_noise_model", "seed",
   "high_lora", "low_lora", "fps"]

/-- A keyword call raises `TypeError` iff some passed keyword is not
among the callee's parameters. -/
def kwargsRejected (params kwargs : List String) : Bool :=
  kwargs.any (fun k => !(params.contains k))

/-- With a caller-supplied seed, the template builder writes it into the
sampler node 86 and writes the fps into the video-creation node 94. -/
theorem build_sets_seed_and_fps (p np : String) (w h f : Int)
    (si hm lm : String) (s : Int) (loras : Option (List LoraPair))
    (fps : Int) (op : String) (r : Int) :
    getInput (build_wan_i2v_workflow p np w h f si hm lm (some s) loras fps op r)
        "86" "noise_seed" = some (.int s) ∧
    getInput (build_wan_i2v_workflow p np w h f si hm lm (some s) loras fps op r)
        "94" "fps" = some (.int fps) := by
  simp only [build_wan_i2v_workflow]
  constructor
  · split <;>
    · rw [getInput_setInput_ne _ _ _ _ _ _ (by decide)]
      rw [getInput_setInput_ne _ _ _ _ _ _ (by decide)]
      split
      · exact getInput_buildPre_86 _ _ _ _ _ _ _ _ _
      · rw [getInput_setInput_ne _ _ _ _ _ _ (by decide)]
        rw [getInput_setInput_ne _ _ _ _ _ _ (by decide)]
        rw [getInput_eq_of_getKey_eq _ _ _ _
              (getKey_addLoraNodes_ne _ _ _ _ _ _ (by decide))]
        exact getInput_buildPre_86 _ _ _ _ _ _ _ _ _
  · split <;>
    · rw [getInput_setInput_ne _ _ _ _ _ _ (by decide)]
      rw [getInput_setInput_eq]
      split
      · apply getKey_buildPre_isSome
        decide
      · apply getKey_setInput_isSome
        apply getKey_setInput_isSome
        apply getKey_addLoraNodes_isSome
        apply getKey_buildPre_isSome
        decide

/-- C9: with a caller-supplied seed the graph builder is a function of its
arguments alone: two invocations with identical inputs but different
outcomes of the `random.randint` oracle (which is consulted only when no
seed is given) produce identical graphs, so no time- or random-dependent
value enters the graph and repeated runs are byte-identical. -/
theorem build_wan_i2v_workflow_deterministic (p np : String) (w h f : Int)
    (si hm lm : String) (s : Int) (loras : Option (List LoraPair))
    (fps : Int) (op : String) (r1 r2 : Int) :
    build_wan_i2v_workflow p np w h f si hm lm (some s) loras fps op r1 =
    build_wan_i2v_workflow p np w h f si hm lm (some s) loras fps op r2 := rfl

/-- C3: the graph-mutation layer does inject the job's fixed seed into
sampler node 86 and the job's fps into video node 94 (first two
conjuncts), but the submission-path call is broken: the orchestrator's
keyword call into `ComfyUIClient.build_wan_i2v_workflow` passes keywords
(`loras`, `output_prefix`, `faceswap_*`) that the wrapper does not accept,
and the wrapper's own delegation passes `high_lora`/`low_lora` which the
template builder does not accept, so every segment submission raises
`TypeError` before any graph reaches the Renderer. -/
theorem submission_path_seed_fps_and_type_error (p np : String)
    (w h f : Int) (si hm lm : String) (s : Int)
    (loras : Option (List LoraPair)) (fps : Int) (op : String) (r : Int) :
    getInput (build_wan_i2v_workflow p np w h f si hm lm (some s) loras fps op r)
        "86" "noise_seed" = some (.int s) ∧
    getInput (build_wan_i2v_workflow p np w h f si hm lm (some s) loras fps op r)
        "94" "fps" = some (.int fps) ∧
    kwargsRejected clientBuilderParams orchestratorCallKwargs = true ∧
    kwargsRejected templateBuilderParams clientDelegationKwargs = true := by
  refine ⟨(build_sets_seed_and_fps p np w h f si hm lm s loras fps op r).1,
          (build_sets_seed_and_fps p np w h f si hm lm s loras fps op r).2,
          by decide, by decide⟩

/-! LoRA chain construction: spec-side description for the refinement
claim, following the spec's words (§4.4): walk the user's list in order,
and for each present side emit a LoRA-loader node and advance that
side's tail; finally the acceleration LoRA reads the last tail. -/

/-- Follows the spec's words: the high-pass chain, as (node id, file)
pairs in emission order, one entry per pair whose high side is present. -/
def specChainHigh : List LoraPair → Nat → List (String × String)
  | [], _ => []
  | l :: rest, i =>
      (if truthy l.high_file then [(LORA_HIGH_IDS.getD i "?", l.high_file.getD "")]
       else []) ++ specChainHigh rest (i + 1)

/-- Follows the spec's words: the low-pass chain, one entry per pair
whose low side is present. -/
def specChainLow : List LoraPair → Nat → List (String × String)
  | [], _ => []
  | l :: rest, i =>
      (if truthy l.low_file then [(LORA_LOW_IDS.getD i "?", l.low_file.getD "")]
       else []) ++ specChainLow rest (i + 1)

/-- Follows the spec's words: each listed node is a LoRA-loader for the
given file whose `model` input is `[previous tail, 0]`, the tail
advancing along the list. -/
def chainLinked (wf : Workflow) : String → List (String × String) → Prop
  | _, [] => True
  | prev, (nid, file) :: rest =>
      Option.map WNode.class_type (getKey wf nid) = some "LoraLoaderModelOnly" ∧
      Option.bind (getKey wf nid) (fun n => getKey n.inputs "lora_name") =
        some (.str file) ∧
      Option.bind (getKey wf nid) (fun n => getKey n.inputs "model") =
        some (.link prev 0) ∧
      chainLinked wf nid rest

theorem ite_cond_true {α : Sort u} (a b : α) :
    (if (true = true) then a else b) = a := rfl

theorem ite_cond_false {α : Sort u} (a b : α) :
    (if (false = true) then a else b) = b := rfl

theorem lora_id_h0 : LORA_HIGH_IDS.getD 0 "?" = "118" := rfl
theorem lora_id_h1 : LORA_HIGH_IDS.getD 1 "?" = "120" := rfl
theorem lora_id_l0 : LORA_LOW_IDS.getD 0 "?" = "119" := rfl
theorem lora_id_l1 : LORA_LOW_IDS.getD 1 "?" = "121" := rfl

theorem getKey_ite_setInput_ne (c : Prop) [Decidable c] (wf : Workflow)
    (nid k1 : String) (v1 : JVal) (k2 : String) (v2 : JVal) (nid' : String)
    (h : nid ≠ nid') :
    getKey (if c then setInput wf nid k1 v1 else setInput wf nid k2 v2) nid' =
      getKey wf nid' := by
  split <;> rw [getKey_setInput_ne _ _ _ _ _ h]

set_option maxHeartbeats 6000000 in
/-- C4: for every LoRA list, the built graph realizes the spec's chain
construction: the emitted high-pass (resp. low-pass) nodes are exactly
the spec's walk of the filtered, at-most-two-pair list, each node's
`model` reads the previous tail, and the acceleration LoRA nodes 101/102
read the final tails ("95"/"96" when a pass got no nodes, which is the
template's untouched direct UNET wiring). -/
theorem lora_chain_construction (p np : String) (w h f : Int)
    (si hm lm : String) (s : Int) (lorasIn : List LoraPair) (fps : Int)
    (op : String) (r : Int) :
    chainLinked
        (build_wan_i2v_workflow p np w h f si hm lm (some s) (some lorasIn) fps op r)
        "95"
        (specChainHigh ((lorasIn.filter
          (fun (l : LoraPair) => truthy l.high_file || truthy l.low_file)).take 2) 0) ∧
    chainLinked
        (build_wan_i2v_workflow p np w h f si hm lm (some s) (some lorasIn) fps op r)
        "96"
        (specChainLow ((lorasIn.filter
          (fun (l : LoraPair) => truthy l.high_file || truthy l.low_file)).take 2) 0) ∧
    getInput (build_wan_i2v_workflow p np w h f si hm lm (some s) (some lorasIn) fps op r)
        "101" "model" =
      some (.link ((specChainHigh ((lorasIn.filter
        (fun (l : LoraPair) => truthy l.high_file || truthy l.low_file)).take 2) 0
          |>.map Prod.fst).getLastD "95") 0) ∧
    getInput (build_wan_i2v_workflow p np w h f si hm lm (some s) (some lorasIn) fps op r)
        "102" "model" =
      some (.link ((specChainLow ((lorasIn.filter
        (fun (l : LoraPair) => truthy l.high_file || truthy l.low_file)).take 2) 0
          |>.map Prod.fst).getLastD "96") 0) := by
  rcases hfil : lorasIn.filter
      (fun (l : LoraPair) => truthy l.high_file || truthy l.low_file) with
    _ | ⟨a, _ | ⟨b, rest⟩⟩
  · simp only [build_wan_i2v_workflow, hfil, List.isEmpty_nil, List.take_nil,
      specChainHigh, specChainLow, List.map_nil, chainLinked, ite_cond_true,
      if_true]
    refine ⟨trivial, trivial, ?_, ?_⟩ <;>
      simp only [getInput] <;>
      (repeat first
        | rw [getKey_ite_setInput_ne _ _ _ _ _ _ _ _ (by decide)]
        | rw [getKey_setInput_ne _ _ _ _ _ (by decide)]
        | rw [getKey_buildPre_ne _ _ _ _ _ _ _ _ _ _ (by decide)]) <;>
      rfl
  · have ht : List.take 2 [a] = [a] := rfl
    simp only [build_wan_i2v_workflow, hfil, ht]
    cases hah : truthy a.high_file <;> cases hal : truthy a.low_file <;>
      (simp only [addLoraNodes, specChainHigh, specChainLow, hah, hal,
        List.isEmpty_cons, ite_cond_true, ite_cond_false, if_true, if_false,
        List.cons_append, List.nil_append, List.append_nil,
        List.singleton_append, Nat.zero_add, lora_id_h0, lora_id_h1,
        lora_id_l0, lora_id_l1, chainLinked, getInput]
       repeat' apply And.intro
       all_goals first
         | exact trivial
         | ((repeat first
              | rw [getKey_ite_setInput_ne _ _ _ _ _ _ _ _ (by decide)]
              | rw [getKey_setInput_ne _ _ _ _ _ (by decide)]
              | rw [getKey_setKey_ne _ _ _ _ (by decide)]
              | rw [getKey_setKey_eq]
              | rw [getKey_setInput_self]
              | rw [getKey_buildPre_ne _ _ _ _ _ _ _ _ _ _ (by decide)])
            rfl))
  · have ht : List.take 2 (a :: b :: rest) = [a, b] := rfl
    simp only [build_wan_i2v_workflow, hfil, ht]
    cases hah : truthy a.high_file <;> cases hal : truthy a.low_file <;>
      cases hbh : truthy b.high_file <;> cases hbl : truthy b.low_file <;>
      (simp only [addLoraNodes, specChainHigh, specChainLow, hah, hal, hbh,
        hbl, List.isEmpty_cons, ite_cond_true, ite_cond_false, if_true,
        if_false, List.cons_append, List.nil_append, List.append_nil,
        List.singleton_append, Nat.zero_add, lora_id_h0, lora_id_h1,
        lora_id_l0, lora_id_l1, chainLinked, getInput]
       repeat' apply And.intro
       all_goals first
         | exact trivial
         | ((repeat first
              | rw [getKey_ite_setInput_ne _ _ _ _ _ _ _ _ (by decide)]
              | rw [getKey_setInput_ne _ _ _ _ _ (by decide)]
              | rw [getKey_setKey_ne _ _ _ _ (by decide)]
              | rw [getKey_setKey_eq]
              | rw [getKey_setInput_self]
              | rw [getKey_buildPre_ne _ _ _ _ _ _ _ _ _ _ (by decide)])
            rfl))

/-! Store rows: jobs and segments (`database.py`), embedded as records;
SQL `UPDATE` becomes a map over the row list.  `now` arguments stand for
`utc_now_iso()`. -/

/-- A row of the `jobs` table, restricted to the columns the embedded
operations read or write. -/
structure JobRec where
  id : Nat
  status : String
  priority : Int
  error_message : Option String
  comfyui_prompt_id : Option String
  output_images : Option (List String)
  started_at : Option String
  completed_at : Option String
  deriving DecidableEq, Repr

/-- A row of the `job_segments` table, restricted to the columns the
embedded operations read or write. -/
structure Segment where
  job_id : Nat
  segment_index : Nat
  status : String
  prompt : Option String
  start_image_url : Option String
  end_frame_url : Option String
  video_path : Option String
  comfyui_prompt_id : Option String
  execution_time : Option Rat
  error_message : Option String
  completed_at : Option String
  deriving DecidableEq, Repr

/-- `database.update_job_status` (lines 660-699): always writes `status`;
`started_at` on `running`; `completed_at` on `completed`/`failed`; each
optional argument is written only when it is not `None`. -/
def update_job_status (now : String) (j : JobRec) (status : String)
    (error_message : Option String) (comfyui_prompt_id : Option String)
    (output_images : Option (List String)) : JobRec :=
  { j with
    status := status
    started_at := if status == "running" then some now else j.started_at
    completed_at :=
      if status == "completed" || status == "failed" then some now
      else j.completed_at
    error_message :=
      match error_message with | none => j.error_message | some e => some e
    comfyui_prompt_id :=
      match comfyui_prompt_id with
      | none => j.comfyui_prompt_id | some x => some x
    output_images :=
      match output_images with | none => j.output_images | some x => some x }

/-- `COALESCE(MAX(priority), 0)` over the whole `jobs` table. -/
def maxPriority : List JobRec → Int
  | [] => 0
  | j :: rest => rest.foldl (fun m x => max m x.priority) j.priority

/-- `database.move_job_to_bottom` (lines 471-490): sets the job's
priority to max+1 over all jobs; `False`/no-op when the id is absent. -/
def move_job_to_bottom (jobs : List JobRec) (jid : Nat) : List JobRec :=
  if jobs.any (fun j => j.id == jid) then
    let next := maxPriority jobs + 1
    jobs.map (fun j => if j.id == jid then { j with priority := next } else j)
  else jobs

/-- `database.update_segment_status` (lines 994-1040): always writes
`status`; `completed_at` on `completed`; each optional argument is
written only when not `None`; rows are addressed by
`(job_id, segment_index)`. -/
def update_segment_status (now : String) (segs : List Segment)
    (jid idx : Nat) (status : String)
    (comfyui_prompt_id end_frame_url video_path error_message : Option String)
    (execution_time : Option Rat) : List Segment :=
  segs.map fun s =>
    if s.job_id == jid && s.segment_index == idx then
      { s with
        status := status
        completed_at :=
          if status == "completed" then some now else s.completed_at
        comfyui_prompt_id :=
          match comfyui_prompt_id with
          | none => s.comfyui_prompt_id | some x => some x
        end_frame_url :=
          match end_frame_url with
          | none => s.end_frame_url | some x => some x
        video_path :=
          match video_path with | none => s.video_path | some x => some x
        error_message :=
          match error_message with
          | none => s.error_message | some x => some x
        execution_time :=
          match execution_time with
          | none => s.execution_time | some x => some x }
    else s

/-- `database.update_segment_start_image` (lines 1081-1088). -/
def update_segment_start_image (segs : List Segment) (jid idx : Nat)
    (url : String) : List Segment :=
  segs.map fun s =>
    if s.job_id == jid && s.segment_index == idx then
      { s with start_image_url := some url }
    else s

/-- The retry endpoint `routes.retry_job` (`routes.py:470-499`): `none`
models the HTTP 404/400 rejections; otherwise resets the job's
non-completed segments to `pending` with error cleared, calls
`update_job_status(job_id, "pending", error_message=None)` and moves the
job to the bottom of the queue. -/
def retry_job (now : String) (jobs : List JobRec) (segs : List Segment)
    (jid : Nat) : Option (List JobRec × List Segment) :=
  match jobs.find? (fun j => j.id == jid) with
  | none => none
  | some job =>
      if job.status != "failed" && job.status != "cancelled" then none
      else
        let segs2 := segs.map fun s =>
          if s.job_id == jid && s.status != "completed" then
            { s with status := "pending", error_message := none }
          else s
        let jobs2 := jobs.map fun j =>
          if j.id == jid then update_job_status now j "pending" none none none
          else j
        some (move_job_to_bottom jobs2 jid, segs2)

/-- A blank segment row, for building concrete states. -/
def blankSeg (jid idx : Nat) (status : String) : Segment :=
  { job_id := jid, segment_index := idx, status := status, prompt := none,
    start_image_url := none, end_frame_url := none, video_path := none,
    comfyui_prompt_id := none, execution_time := none, error_message := none,
    completed_at := none }

/-- The failed job of the C1 failing input. -/
def c1Job : JobRec :=
  { id := 1, status := "failed", priority := 5,
    error_message := some "Segment 2 failed: boom",
    comfyui_prompt_id := none, output_images := none,
    started_at := none, completed_at := some "t_fail" }

/-- A second pending job occupying priority 7. -/
def c1Other : JobRec :=
  { id := 2, status := "pending", priority := 7, error_message := none,
    comfyui_prompt_id := none, output_images := none,
    started_at := none, completed_at := none }

/-- Segments of the C1 failing input: [completed, failed, pending]. -/
def c1Segs : List Segment :=
  [ { blankSeg 1 0 "completed" with video_path := some "v0.mp4" },
    { blankSeg 1 1 "failed" with error_message := some "boom" },
    blankSeg 1 2 "pending" ]

/-- C1: retry on a failed job resets the non-completed segments to
`pending` with errors cleared, leaves the completed segment unchanged,
sets the job `pending` and moves it to the bottom of the queue
(priority `max+1 = 8`) — but, because the endpoint passes
`error_message=None` and `update_job_status` only writes a non-`None`
error, the job's error message is NOT cleared, contradicting the claim
(and the endpoint's own comment). -/
theorem retry_resets_segments_but_keeps_job_error :
    retry_job "t1" [c1Job, c1Other] c1Segs 1 =
      some ([{ c1Job with status := "pending", priority := 8 }, c1Other],
            [{ blankSeg 1 0 "completed" with video_path := some "v0.mp4" },
             blankSeg 1 1 "pending",
             blankSeg 1 2 "pending"]) ∧
    ({ c1Job with status := "pending", priority := 8 }).error_message =
      some "Segment 2 failed: boom" := by
  refine ⟨?_, rfl⟩
  rfl

/-! Renderer client queue-status call (`comfyui_client.py:399-407`) and
what the orchestrator's gate sees (`queue_manager.py:402-428`). -/

/-- The dict returned by `ComfyUIClient.get_queue_status`: the Renderer's
queues plus the optional `connected` / `error` keys (absent when the key
is not in the dict). -/
structure QueueStatusD where
  queue_running : List (List String)
  queue_pending : List (List String)
  connected : Option Bool
  error : Option String
  deriving DecidableEq, Repr

/-- Outcome of the underlying `GET /queue` request: a response with a
status code and parsed JSON body, or a raised exception. -/
inductive HttpOutcome where
  | ok (statusCode : Nat) (body : QueueStatusD)
  | exn (msg : String)
  deriving DecidableEq, Repr

/-- `ComfyUIClient.get_queue_status` (lines 399-407): returns the parsed
body on 200; on any other status code or any exception returns
`{"queue_running": [], "queue_pending": []}` — with no `connected` key. -/
def get_queue_status : HttpOutcome → QueueStatusD
  | .ok 200 body => body
  | .ok _ _ => ⟨[], [], none, none⟩
  | .exn _ => ⟨[], [], none, none⟩

/-- The orchestrator's check `queue_status.get("connected", True)`
(`queue_manager.py:405`). -/
def callerSeesConnected (qs : QueueStatusD) : Bool := qs.connected.getD true

/-- C2: when the HTTP request to the Renderer raises, `get_queue_status`
does not raise (it is total and returns the empty-queue dict) — but the
result carries NO `connected` key, so it is not `connected=false`, and
the orchestrator's `get("connected", True)` defaults to `True`: a down
Renderer is indistinguishable from an idle connected one, contradicting
the claim and the gate code written against it. -/
theorem get_queue_status_failure_has_no_connected_flag :
    (get_queue_status (.exn "Connection refused")).connected = none ∧
    (get_queue_status (.exn "Connection refused")).connected ≠ some false ∧
    callerSeesConnected (get_queue_status (.exn "Connection refused")) = true ∧
    (get_queue_status (.ok 500 ⟨[], [], none, none⟩)).connected = none := by
  refine ⟨rfl, by decide, rfl, rfl⟩

/-! Media-pipeline path conventions (`video_utils.py:138-167`).  `root`
stands for the absolute `OUTPUT_DIR`; `Path / x` is embedded as
`++ "/" ++ x`. -/

/-- `video_utils.get_segment_video_path` (lines 145-148). -/
def get_segment_video_path (root : String) (job_id segment_index : Nat) :
    String :=
  root ++ "/job_" ++ toString job_id ++ "/segment_" ++
    toString segment_index ++ ".mp4"

/-- `video_utils.get_segment_frame_path` (lines 151-160). -/
def get_segment_frame_path (root : String) (job_id segment_index : Nat)
    (frame_type : String) : String :=
  root ++ "/job_" ++ toString job_id ++ "/segment_" ++
    toString segment_index ++ "_" ++ frame_type ++ "_frame.jpg"

/-- `video_utils.get_final_video_path` (lines 163-166): takes only the
job id and returns the fixed name `final_video.mp4`. -/
def get_final_video_path (root : String) (job_id : Nat) : String :=
  root ++ "/job_" ++ toString job_id ++ "/final_video.mp4"

/-- Number of parameters of `video_utils.get_final_video_path`. -/
def finalVideoPathParamCount : Nat := 1

/-- Number of positional arguments the finalizer passes at
`queue_manager.py:734`: `(job_id, job_name, finalized_at)`. -/
def finalizeCallArgCount : Nat := 3

/-- A Python positional call with more arguments than parameters (and no
`*args`) raises `TypeError`. -/
def positionalCallRaises (paramCount argCount : Nat) : Bool :=
  paramCount < argCount

/-- C6: the segment-video and last-frame path conventions hold, but the
finalized-video path is the fixed `final_video.mp4` — it does not
contain the sanitized job name or a timestamp — and the finalizer's
3-argument call into the 1-parameter `get_final_video_path` raises
`TypeError`, so finalize never computes the claimed destination. -/
theorem final_video_path_fixed_and_call_mismatch :
    get_segment_video_path "output" 7 3 = "output/job_7/segment_3.mp4" ∧
    get_segment_frame_path "output" 7 3 "last" =
      "output/job_7/segment_3_last_frame.jpg" ∧
    get_final_video_path "output" 7 = "output/job_7/final_video.mp4" ∧
    positionalCallRaises finalVideoPathParamCount finalizeCallArgCount = true := by
  refine ⟨rfl, rfl, rfl, by decide⟩

/-! Output-media enumeration and video-URL selection
(`comfyui_client.get_output_images`, lines 435-463, and the selection
loop in `QueueManager._wait_for_segment_completion`, lines 603-610). -/

/-- `str.lower()`. -/
def lowerStr (s : String) : String := ⟨s.data.map Char.toLower⟩

/-- Python `needle in hay` on strings: substring containment. -/
def containsSub : List Char → List Char → Bool
  | [], needle => needle.isEmpty
  | c :: t, needle => needle.isPrefixOf (c :: t) || containsSub t needle

/-- The extension list `['.mp4', '.webm', '.gif']`
(`queue_manager.py:607`). -/
def videoExtensions : List String := [".mp4", ".webm", ".gif"]

/-- The source's test
`any(ext in url.lower() for ext in ['.mp4', '.webm', '.gif'])`:
substring containment anywhere in the lowercased URL. -/
def videoPattern (url : String) : Bool :=
  videoExtensions.any (fun ext => containsSub (lowerStr url).data ext.data)

/-- The selection loop (`queue_manager.py:604-610`): the first URL
matching `videoPattern`, else none. -/
def findVideoUrl : List String → Option String
  | [] => none
  | url :: rest => if videoPattern url then some url else findVideoUrl rest

/-- One media record of a history `outputs` node, with Python defaults
already applied (`subfolder` defaults to `""`, `type` to `"output"`; a
missing `filename` is the empty string). -/
structure MediaEntry where
  filename : String
  subfolder : String
  mtype : String
  deriving DecidableEq, Repr

/-- The `/view` URL built at `comfyui_client.py:459`. -/
def buildViewUrl (base : String) (m : MediaEntry) : String :=
  base ++ "/view?filename=" ++ m.filename ++ "&subfolder=" ++ m.subfolder ++
    "&type=" ++ m.mtype

/-- A node's output dict: media key (`images`/`videos`/`gifs`) to
records. -/
abbrev NodeOutputs := Dict (List MediaEntry)

/-- A history record's `outputs`: node id to node outputs. -/
abbrev HistoryOutputs := Dict NodeOutputs

/-- `ComfyUIClient.get_output_images` (lines 435-463): for every node in
order, for each of the keys `images`, `videos`, `gifs` that is present,
one URL per record with a truthy filename. -/
def get_output_images (base : String) (outputs : HistoryOutputs) :
    List String :=
  (outputs.map (fun no =>
    (["images", "videos", "gifs"].map (fun mk =>
      match getKey no.2 mk with
      | some lst => lst.filterMap (fun m =>
          if m.filename != "" then some (buildViewUrl base m) else none)
      | none => [])).flatten)).flatten

/-- Follows the claim's words: a filename whose extension is `.mp4`,
`.webm` or `.gif` (lowercased suffix test). -/
def hasVideoExtension (filename : String) : Bool :=
  videoExtensions.any (fun ext => ext.data.isSuffixOf (lowerStr filename).data)

/-- Follows the claim's words: the media records in enumeration order
(same traversal as `get_output_images`). -/
def enumerateMedia (outputs : HistoryOutputs) : List MediaEntry :=
  (outputs.map (fun no =>
    (["images", "videos", "gifs"].map (fun mk =>
      match getKey no.2 mk with
      | some lst => lst.filter (fun m => m.filename != "")
      | none => [])).flatten)).flatten

/-- Follows the claim's words: the URL of the first enumerated record
whose file extension is `.mp4`, `.webm` or `.gif`. -/
def specFirstExtensionUrl (base : String) (outputs : HistoryOutputs) :
    Option String :=
  ((enumerateMedia outputs).find? (fun m => hasVideoExtension m.filename)).map
    (buildViewUrl base)

/-- The C7 counterexample input: a PNG still whose name contains `.gif`
as a substring (`frame.gift.png`) enumerated before the real video. -/
def c7Outputs : HistoryOutputs :=
  [("108", [("images", [{ filename := "frame.gift.png", subfolder := "",
                          mtype := "output" }]),
            ("videos", [{ filename := "video.mp4", subfolder := "",
                          mtype := "output" }])])]

/-- C7 counterexample: the code's substring selection picks the
`frame.gift.png` URL (it contains `.gif`), while the first URL whose
file extension is `.mp4`/`.webm`/`.gif` is the `video.mp4` URL — the
claim is false on this input. -/
theorem video_url_substring_beats_extension :
    findVideoUrl (get_output_images "http://h" c7Outputs) =
      some "http://h/view?filename=frame.gift.png&subfolder=&type=output" ∧
    specFirstExtensionUrl "http://h" c7Outputs =
      some "http://h/view?filename=video.mp4&subfolder=&type=output" ∧
    ("http://h/view?filename=frame.gift.png&subfolder=&type=output" : String) ≠
      "http://h/view?filename=video.mp4&subfolder=&type=output" := by
  refine ⟨by decide, by decide, by decide⟩

theorem containsSub_nil_needle (hay : List Char) :
    containsSub hay [] = true := by
  cases hay <;> simp [containsSub, List.isPrefixOf]

theorem isPrefixOf_append_self (m r : List Char) :
    m.isPrefixOf (m ++ r) = true := by
  induction m with
  | nil => simp [List.isPrefixOf]
  | cons c t ih => simp [List.cons_append, List.isPrefixOf, ih]

theorem containsSub_append (pre mid post : List Char) :
    containsSub (pre ++ mid ++ post) mid = true := by
  induction pre with
  | nil =>
      simp only [List.nil_append]
      cases hm : mid with
      | nil => exact containsSub_nil_needle post
      | cons c t =>
          rw [List.cons_append]
          unfold containsSub
          rw [← List.cons_append, ← hm, isPrefixOf_append_self]
          simp
  | cons c preT ih =>
      rw [List.cons_append, List.cons_append]
      unfold containsSub
      rw [← List.cons_append, ← List.cons_append, ih]
      simp

theorem lowerStr_append (a b : String) :
    (lowerStr (a ++ b)).data = (lowerStr a).data ++ (lowerStr b).data := by
  simp [lowerStr]

/-- C7 amended: the selection is first-match on a substring test: the
chosen URL is the first in enumeration order that contains `.mp4`,
`.webm` or `.gif` case-insensitively anywhere in the URL.  Every URL
built from a filename with one of those extensions passes the test (so
genuine video URLs are never skipped), but a URL merely containing such
a string elsewhere also passes and can be chosen ahead. -/
theorem find_video_url_first_substring_match (u : String) (urls : List String)
    (base : String) (m : MediaEntry) (ext : String)
    (hext : ext ∈ videoExtensions)
    (hsuf : ∃ pre, (lowerStr m.filename).data = pre ++ ext.data) :
    findVideoUrl (u :: urls) =
      (if videoPattern u then some u else findVideoUrl urls) ∧
    videoPattern (buildViewUrl base m) = true := by
  refine ⟨rfl, ?_⟩
  obtain ⟨pre, hpre⟩ := hsuf
  have hc : containsSub (lowerStr (buildViewUrl base m)).data ext.data = true := by
    unfold buildViewUrl
    simp only [lowerStr_append, hpre]
    have := containsSub_append
      ((lowerStr base).data ++ (lowerStr "/view?filename=").data ++ pre)
      ext.data
      ((lowerStr "&subfolder=").data ++ (lowerStr m.subfolder).data ++
        (lowerStr "&type=").data ++ (lowerStr m.mtype).data)
    simp only [List.append_assoc] at this ⊢
    exact this
  unfold videoPattern
  rw [List.any_eq_true]
  exact ⟨ext, hext, hc⟩

/-- Witness for the amended C7 theorem at a concrete input. -/
theorem find_video_url_first_substring_match_witness :
    videoPattern (buildViewUrl "http://h"
      { filename := "video.mp4", subfolder := "", mtype := "output" }) = true :=
  (find_video_url_first_substring_match "u" [] "http://h"
    { filename := "video.mp4", subfolder := "", mtype := "output" } ".mp4"
    (by decide) ⟨"video".data, by decide⟩).2

/-! Upload deduplication: the `uploaded_images` table
(`database.py:1620-1655`) and the upload endpoint
(`routes.upload_image`, `routes.py:1161-1198`).  `sha` is the SHA-256
hex digest as a function of the raw bytes (`compute_image_hash`);
`rendererUpload` is the Renderer's `POST /upload/image` returning the
assigned filename, `none` on failure. -/

/-- A row of `uploaded_images`; `content_hash` carries a `UNIQUE`
constraint. -/
structure UploadEntry where
  content_hash : String
  comfyui_filename : String
  original_filename : Option String
  uploaded_at : String
  deriving DecidableEq, Repr

/-- `database.get_image_by_hash` (lines 1620-1633). -/
def get_image_by_hash (tbl : List UploadEntry) (h : String) :
    Option UploadEntry :=
  tbl.find? (fun e => e.content_hash == h)

/-- `database.store_uploaded_image` (lines 1636-1650): insert, or return
`False` leaving the table unchanged when the hash uniqueness constraint
fires. -/
def store_uploaded_image (tbl : List UploadEntry) (h fn : String)
    (orig : Option String) (now : String) : List UploadEntry × Bool :=
  if tbl.any (fun e => e.content_hash == h) then (tbl, false)
  else (tbl ++ [{ content_hash := h, comfyui_filename := fn,
                  original_filename := orig, uploaded_at := now }], true)

/-- Response of the upload endpoint: `{filename, deduplicated}` on
success, or an HTTP error status. -/
inductive UploadResponse where
  | ok (filename : String) (deduplicated : Bool)
  | httpError (code : Nat)
  deriving DecidableEq, Repr

/-- Result of one endpoint invocation: the response, the new dedup
table, and how many uploads reached the Renderer during the call. -/
structure UploadOutcome where
  response : UploadResponse
  table : List UploadEntry
  rendererUploads : Nat
  deriving DecidableEq, Repr

/-- `routes.upload_image` (lines 1161-1198): hash the bytes; if the hash
is known return the recorded Renderer filename with
`deduplicated=true` and perform no upload; otherwise upload to the
Renderer (500 on a falsy result) and record the hash. -/
def upload_image_endpoint (sha : List Nat → String)
    (rendererUpload : List Nat → Option String) (now : String)
    (tbl : List UploadEntry) (content : List Nat) (origName : String) :
    UploadOutcome :=
  let h := sha content
  match get_image_by_hash tbl h with
  | some existing => ⟨.ok existing.comfyui_filename true, tbl, 0⟩
  | none =>
      match rendererUpload content with
      | none => ⟨.httpError 500, tbl, 1⟩
      | some fn =>
          if fn == "" then ⟨.httpError 500, tbl, 1⟩
          else ⟨.ok fn false, (store_uploaded_image tbl h fn (some origName) now).1, 1⟩

theorem find?_append_of_none {α : Type} (l1 l2 : List α) (p : α → Bool)
    (h : l1.find? p = none) : (l1 ++ l2).find? p = l2.find? p := by
  induction l1 with
  | nil => simp
  | cons a t ih =>
      cases hpa : p a with
      | true => simp [List.find?, hpa] at h
      | false =>
          simp only [List.cons_append, List.find?, hpa] at h ⊢
          exact ih h

/-- C8: two byte-identical uploads against a table with no entry for
their hash: the first succeeds and records one entry; the second
returns the first call's Renderer filename with `deduplicated=true`,
performs zero Renderer uploads and leaves the table unchanged; the
dedup index holds exactly one entry for the hash. -/
theorem upload_dedup_second_request (sha : List Nat → String)
    (ru : List Nat → Option String) (now1 now2 : String)
    (tbl : List UploadEntry) (content : List Nat) (name1 name2 fn : String)
    (h0 : get_image_by_hash tbl (sha content) = none)
    (hru : ru content = some fn) (hfn : fn ≠ "") :
    (upload_image_endpoint sha ru now1 tbl content name1).response =
      .ok fn false ∧
    (upload_image_endpoint sha ru now1 tbl content name1).rendererUploads = 1 ∧
    (upload_image_endpoint sha ru now2
        (upload_image_endpoint sha ru now1 tbl content name1).table
        content name2).response = .ok fn true ∧
    (upload_image_endpoint sha ru now2
        (upload_image_endpoint sha ru now1 tbl content name1).table
        content name2).rendererUploads = 0 ∧
    (upload_image_endpoint sha ru now2
        (upload_image_endpoint sha ru now1 tbl content name1).table
        content name2).table =
      (upload_image_endpoint sha ru now1 tbl content name1).table ∧
    ((upload_image_endpoint sha ru now1 tbl content name1).table.countP
        (fun e => e.content_hash == sha content)) = 1 := by
  have hfind : tbl.find? (fun e => e.content_hash == sha content) = none := h0
  have hany : (tbl.any fun e => e.content_hash == sha content) = false := by
    cases hA : tbl.any (fun e => e.content_hash == sha content) with
    | false => rfl
    | true =>
        obtain ⟨x, hx, hpx⟩ := List.any_eq_true.mp hA
        exact absurd hpx (List.find?_eq_none.mp hfind x hx)
  have hbeq : (fn == "") = false := by
    cases hB : fn == "" with
    | false => rfl
    | true => exact absurd (eq_of_beq hB) hfn
  have houter : upload_image_endpoint sha ru now1 tbl content name1 =
      ⟨.ok fn false,
       tbl ++ [{ content_hash := sha content, comfyui_filename := fn,
                 original_filename := some name1, uploaded_at := now1 }],
       1⟩ := by
    simp only [upload_image_endpoint, h0, hru, hbeq, store_uploaded_image,
      hany, ite_cond_false]
  have hfind2 : get_image_by_hash
      (tbl ++ [{ content_hash := sha content, comfyui_filename := fn,
                 original_filename := some name1, uploaded_at := now1 }])
      (sha content) =
      some { content_hash := sha content, comfyui_filename := fn,
             original_filename := some name1, uploaded_at := now1 } := by
    unfold get_image_by_hash
    rw [find?_append_of_none _ _ _ hfind]
    simp [List.find?]
  have hsecond : upload_image_endpoint sha ru now2
      (tbl ++ [{ content_hash := sha content, comfyui_filename := fn,
                 original_filename := some name1, uploaded_at := now1 }])
      content name2 =
      ⟨.ok fn true,
       tbl ++ [{ content_hash := sha content, comfyui_filename := fn,
                 original_filename := some name1, uploaded_at := now1 }],
       0⟩ := by
    simp only [upload_image_endpoint, hfind2]
  refine ⟨by rw [houter], by rw [houter], ?_, ?_, ?_, ?_⟩
  · rw [houter]
    simp only [hsecond]
  · rw [houter]
    simp only [hsecond]
  · rw [houter]
    simp only [hsecond]
  · rw [houter]
    simp only [List.countP_append]
    have hz : tbl.countP (fun e => e.content_hash == sha content) = 0 := by
      rw [List.countP_eq_zero]
      intro a ha
      exact List.find?_eq_none.mp hfind a ha
    rw [hz]
    simp [List.countP_cons]

/-- Witness for C8 at a concrete input. -/
theorem upload_dedup_second_request_witness :
    (upload_image_endpoint (fun _ => "h1") (fun _ => some "f1.png") "t1" []
        [0, 1] "cat.png").response = .ok "f1.png" false ∧
    (upload_image_endpoint (fun _ => "h1") (fun _ => some "f1.png") "t1" []
        [0, 1] "cat.png").rendererUploads = 1 ∧
    (upload_image_endpoint (fun _ => "h1") (fun _ => some "f1.png") "t2"
        (upload_image_endpoint (fun _ => "h1") (fun _ => some "f1.png") "t1" []
          [0, 1] "cat.png").table [0, 1] "cat2.png").response =
      .ok "f1.png" true ∧
    (upload_image_endpoint (fun _ => "h1") (fun _ => some "f1.png") "t2"
        (upload_image_endpoint (fun _ => "h1") (fun _ => some "f1.png") "t1" []
          [0, 1] "cat.png").table [0, 1] "cat2.png").rendererUploads = 0 ∧
    (upload_image_endpoint (fun _ => "h1") (fun _ => some "f1.png") "t2"
        (upload_image_endpoint (fun _ => "h1") (fun _ => some "f1.png") "t1" []
          [0, 1] "cat.png").table [0, 1] "cat2.png").table =
      (upload_image_endpoint (fun _ => "h1") (fun _ => some "f1.png") "t1" []
        [0, 1] "cat.png").table ∧
    ((upload_image_endpoint (fun _ => "h1") (fun _ => some "f1.png") "t1" []
        [0, 1] "cat.png").table.countP (fun e => e.content_hash == "h1")) = 1 :=
  upload_dedup_second_request (fun _ => "h1") (fun _ => some "f1.png")
    "t1" "t2" [] [0, 1] "cat.png" "cat2.png" "f1.png" rfl rfl (by decide)

/-! The completed-prompt branch of the completion wait
(`QueueManager._wait_for_segment_completion`, lines 597-681). -/

/-- The end-frame URL built at `queue_manager.py:633`. -/
def viewInputUrl (base fn : String) : String :=
  base ++ "/view?filename=" ++ fn ++ "&subfolder=&type=input"

/-- Oracles for the post-processing effects of the completed branch:
video download, last-frame extraction, frame upload to the Renderer, and
the execution time reported by the Renderer's history. -/
structure PostOracles where
  download : String → String → Bool
  extract : String → String → Bool
  uploadFrame : Nat → Nat → Option String
  execTime : Option Rat

/-- The `status == "completed"` branch of
`_wait_for_segment_completion` (lines 597-681): select the video URL by
substring match; when none is found mark the segment `completed` with no
further writes and report success; otherwise run
download → extract → upload → record, failing the segment with the
per-step message on the first failed step, and mirror the end-frame URL
into the next segment's start image.  Returns the updated segment rows
and the wait's boolean result. -/
def onPromptCompleted (now root base : String) (oracles : PostOracles)
    (segs : List Segment) (jid idx : Nat) (mediaUrls : List String) :
    List Segment × Bool :=
  match findVideoUrl mediaUrls with
  | none =>
      (update_segment_status now segs jid idx "completed"
        none none none none none, true)
  | some videoUrl =>
      let videoPath := get_segment_video_path root jid idx
      if oracles.download videoUrl videoPath then
        let framePath := get_segment_frame_path root jid idx "last"
        if oracles.extract videoPath framePath then
          match oracles.uploadFrame jid idx with
          | some uploadedFilename =>
              if uploadedFilename != "" then
                let endFrameUrl := viewInputUrl base uploadedFilename
                let segs1 := update_segment_status now segs jid idx "completed"
                    none (some endFrameUrl) (some videoPath) none
                    oracles.execTime
                (update_segment_start_image segs1 jid (idx + 1) endFrameUrl,
                 true)
              else
                (update_segment_status now segs jid idx "failed" none none none
                  (some ("Failed to upload last frame to ComfyUI for segment "
                    ++ toString idx)) none, false)
          | none =>
              (update_segment_status now segs jid idx "failed" none none none
                (some ("Failed to upload last frame to ComfyUI for segment "
                  ++ toString idx)) none, false)
        else
          (update_segment_status now segs jid idx "failed" none none none
            (some ("Failed to extract last frame from video at " ++ videoPath))
            none, false)
      else
        (update_segment_status now segs jid idx "failed" none none none
          (some ("Failed to download video from ComfyUI: " ++ videoUrl))
          none, false)

/-- C10: when the prompt completed but no enumerated URL matches the
video patterns, the wait marks the segment `completed` and reports
success, while the segment's video path, end-frame URL and execution
time stay untouched, every segment's start image stays untouched (in
particular the next segment's), and every other row is unchanged. -/
theorem no_video_output_marks_completed (now root base : String)
    (oracles : PostOracles) (segs : List Segment) (jid idx : Nat)
    (mediaUrls : List String) (hnv : findVideoUrl mediaUrls = none) :
    (onPromptCompleted now root base oracles segs jid idx mediaUrls).2 =
      true ∧
    List.Forall₂ (fun s s2 =>
        s2.video_path = s.video_path ∧ s2.end_frame_url = s.end_frame_url ∧
        s2.execution_time = s.execution_time ∧
        s2.start_image_url = s.start_image_url ∧
        s2.error_message = s.error_message ∧
        (s.job_id = jid ∧ s.segment_index = idx → s2.status = "completed") ∧
        (¬(s.job_id = jid ∧ s.segment_index = idx) → s2 = s))
      segs (onPromptCompleted now root base oracles segs jid idx mediaUrls).1 := by
  have hres : onPromptCompleted now root base oracles segs jid idx mediaUrls =
      (update_segment_status now segs jid idx "completed"
        none none none none none, true) := by
    unfold onPromptCompleted
    rw [hnv]
  rw [hres]
  refine ⟨rfl, ?_⟩
  unfold update_segment_status
  rw [List.forall₂_map_right_iff, List.forall₂_same]
  intro s hs
  cases hc : s.job_id == jid && s.segment_index == idx with
  | true =>
      have hj : s.job_id = jid ∧ s.segment_index = idx := by
        have hand := Bool.and_eq_true_iff.mp hc
        exact ⟨eq_of_beq hand.1, eq_of_beq hand.2⟩
      exact ⟨rfl, rfl, rfl, rfl, rfl, fun _ => rfl, fun hn => absurd hj hn⟩
  | false =>
      exact ⟨rfl, rfl, rfl, rfl, rfl,
        fun hj => by
          rw [hj.1, hj.2] at hc
          simp at hc,
        fun _ => rfl⟩

/-- Witness for C10 at a concrete input: a completed prompt whose only
output is a PNG. -/
theorem no_video_output_marks_completed_witness :
    (onPromptCompleted "t1" "output" "http://h"
        ⟨fun _ _ => true, fun _ _ => true, fun _ _ => none, none⟩
        [blankSeg 1 0 "running", blankSeg 1 1 "pending"] 1 0
        ["http://h/view?filename=a.png&subfolder=&type=output"]).2 = true ∧
    List.Forall₂ (fun s s2 =>
        s2.video_path = s.video_path ∧ s2.end_frame_url = s.end_frame_url ∧
        s2.execution_time = s.execution_time ∧
        s2.start_image_url = s.start_image_url ∧
        s2.error_message = s.error_message ∧
        (s.job_id = 1 ∧ s.segment_index = 0 → s2.status = "completed") ∧
        (¬(s.job_id = 1 ∧ s.segment_index = 0) → s2 = s))
      [blankSeg 1 0 "running", blankSeg 1 1 "pending"]
      (onPromptCompleted "t1" "output" "http://h"
        ⟨fun _ _ => true, fun _ _ => true, fun _ _ => none, none⟩
        [blankSeg 1 0 "running", blankSeg 1 1 "pending"] 1 0
        ["http://h/view?filename=a.png&subfolder=&type=output"]).1 :=
  no_video_output_marks_completed "t1" "output" "http://h"
    ⟨fun _ _ => true, fun _ _ => true, fun _ _ => none, none⟩
    [blankSeg 1 0 "running", blankSeg 1 1 "pending"] 1 0
    ["http://h/view?filename=a.png&subfolder=&type=output"] (by decide)

/-! The startup reconciler `database.reset_orphaned_running_jobs`
(lines 493-634).  The ComfyUI client passed in becomes an oracle record;
`os.path.exists` becomes the `fs` oracle. -/

/-- Oracle view of the ComfyUI client during reconciliation:
`get_prompt_status(pid)["status"] == "completed"` and the two queues
returned by `get_queue_status()`. -/
structure RenderOracle where
  historyCompleted : String → Bool
  queue_running : List (List String)
  queue_pending : List (List String)

/-- Extraction of active prompt ids (lines 528-539): `item[1]` of every
queue entry that is a list of length > 1. -/
def activeIds (c : RenderOracle) : List String :=
  (c.queue_running ++ c.queue_pending).filterMap fun item =>
    match item with
    | _ :: pid :: _ => some pid
    | _ => none

/-- The per-segment pass of the reconciler (lines 543-581): local video
file present → `completed`; else, with a client and a truthy prompt
handle: completed in history → `needs_recovery`; in the active queue →
keep `running`; otherwise reset to `pending`. -/
def reconcileSegment (fs : String → Bool) (client : Option RenderOracle)
    (active : List String) (s : Segment) : Segment :=
  if s.status != "running" then s
  else if (match s.video_path with
           | some vp => vp != "" && fs vp
           | none => false) then
    { s with status := "completed" }
  else
    match client with
    | none => { s with status := "pending" }
    | some c =>
        match s.comfyui_prompt_id with
        | none => { s with status := "pending" }
        | some pid =>
            if pid != "" then
              if c.historyCompleted pid then { s with status := "needs_recovery" }
              else if active.contains pid then s
              else { s with status := "pending" }
            else { s with status := "pending" }

/-- The job pass (lines 583-598): a `running` job with no `running`
segment left is reset to `pending`. -/
def reconcileJob (withRunning : List Nat) (j : JobRec) : JobRec :=
  if j.status == "running" && !(withRunning.contains j.id) then
    { j with status := "pending" }
  else j

/-- The failed-job synchronization pass (lines 602-622): a `running`
segment of a `failed` job whose prompt handle is not in the active queue
is failed with the fixed message.  (The two SQL branches — with and
without active prompt ids — coincide under this condition.) -/
def failSyncSegment (jobs : List JobRec) (active : List String)
    (s : Segment) : Segment :=
  if s.status == "running"
      && jobs.any (fun j => j.id == s.job_id && j.status == "failed")
      && (match s.comfyui_prompt_id with
          | none => true
          | some pid => !(active.contains pid)) then
    { s with status := "failed",
             error_message := some "Job failed during processing" }
  else s

/-- `database.reset_orphaned_running_jobs` (lines 493-634): segment pass,
then job pass over the updated segments, then failed-job
synchronization against the updated jobs. -/
def reset_orphaned_running_jobs (fs : String → Bool)
    (client : Option RenderOracle) (jobs : List JobRec)
    (segments : List Segment) : List JobRec × List Segment :=
  let active := match client with | some c => activeIds c | none => []
  let segs1 := segments.map (reconcileSegment fs client active)
  let withRunning := segs1.filterMap fun s =>
    if s.status == "running" then some s.job_id else none
  let jobs2 := jobs.map (reconcileJob withRunning)
  (jobs2, segs1.map (failSyncSegment jobs2 active))

theorem recSeg_skip (fs : String → Bool) (client : Option RenderOracle)
    (active : List String) (s : Segment) (h : s.status ≠ "running") :
    reconcileSegment fs client active s = s := by
  unfold reconcileSegment
  rw [if_pos (bne_iff_ne.mpr h)]

theorem recSeg_total (fs : String → Bool) (client : Option RenderOracle)
    (active : List String) (s : Segment) :
    (reconcileSegment fs client active s = s ∧
      (s.status = "running" →
        ∃ pid, s.comfyui_prompt_id = some pid ∧
          active.contains pid = true)) ∨
    ((reconcileSegment fs client active s).status = "completed" ∨
     (reconcileSegment fs client active s).status = "needs_recovery" ∨
     (reconcileSegment fs client active s).status = "pending") := by
  unfold reconcileSegment
  cases hbne : s.status != "running" with
  | true =>
      simp only [ite_cond_true]
      first
      | exact Or.inl ⟨rfl, fun hr => absurd hr (bne_iff_ne.mp hbne)⟩
      | exact Or.inl ⟨trivial, fun hr => absurd hr (bne_iff_ne.mp hbne)⟩
  | false =>
      simp only [ite_cond_false]
      cases hvid : (match s.video_path with
                    | some vp => vp != "" && fs vp
                    | none => false) with
      | true =>
          simp only [ite_cond_true]
          first
          | exact Or.inr (Or.inl rfl)
          | exact Or.inr (Or.inl trivial)
      | false =>
          simp only [ite_cond_false]
          cases client with
          | none => exact Or.inr (Or.inr (Or.inr rfl))
          | some c =>
              cases hpid : s.comfyui_prompt_id with
              | none => exact Or.inr (Or.inr (Or.inr rfl))
              | some pid =>
                  simp only []
                  cases hne : pid != "" with
                  | false =>
                      simp only [ite_cond_false]
                      first
                      | exact Or.inr (Or.inr (Or.inr rfl))
                      | exact Or.inr (Or.inr (Or.inr trivial))
                  | true =>
                      simp only [ite_cond_true]
                      cases hh : c.historyCompleted pid with
                      | true =>
                          simp only [ite_cond_true]
                          first
                          | exact Or.inr (Or.inr (Or.inl rfl))
                          | exact Or.inr (Or.inr (Or.inl trivial))
                      | false =>
                          simp only [ite_cond_false]
                          cases hact : active.contains pid with
                          | true =>
                              simp only [ite_cond_true]
                              first
                              | exact Or.inl ⟨rfl, fun _ => ⟨pid, rfl, hact⟩⟩
                              | exact Or.inl ⟨trivial, fun _ => ⟨pid, rfl, hact⟩⟩
                              | exact Or.inl ⟨rfl, fun _ => ⟨pid, hpid, hact⟩⟩
                              | exact Or.inl ⟨trivial, fun _ => ⟨pid, hpid, hact⟩⟩
                          | false =>
                              simp only [ite_cond_false]
                              first
                              | exact Or.inr (Or.inr (Or.inr rfl))
                              | exact Or.inr (Or.inr (Or.inr trivial))

theorem failSync_skip (jobs : List JobRec) (active : List String)
    (s : Segment) (h : s.status ≠ "running") :
    failSyncSegment jobs active s = s := by
  unfold failSyncSegment
  split
  case isTrue hcond =>
      exact absurd (eq_of_beq
        (Bool.and_eq_true_iff.mp (Bool.and_eq_true_iff.mp hcond).1).1) h
  case isFalse _ => rfl

theorem failSync_total (jobs : List JobRec) (active : List String)
    (s : Segment) :
    failSyncSegment jobs active s = s ∨
    ((failSyncSegment jobs active s).status = "failed" ∧
      jobs.any (fun j => j.id == s.job_id && j.status == "failed") = true) := by
  unfold failSyncSegment
  cases hc : (s.status == "running"
      && jobs.any (fun j => j.id == s.job_id && j.status == "failed")
      && (match s.comfyui_prompt_id with
          | none => true
          | some pid => !(active.contains pid))) with
  | false =>
      simp only [ite_cond_false]
      first
      | exact Or.inl rfl
      | exact Or.inl trivial
  | true =>
      simp only [ite_cond_true]
      first
      | exact Or.inr ⟨rfl,
          (Bool.and_eq_true_iff.mp (Bool.and_eq_true_iff.mp hc).1).2⟩
      | exact Or.inr ⟨trivial,
          (Bool.and_eq_true_iff.mp (Bool.and_eq_true_iff.mp hc).1).2⟩

theorem recJob_id (w : List Nat) (j : JobRec) :
    (reconcileJob w j).id = j.id := by
  unfold reconcileJob
  split <;> rfl

theorem recJob_running (w : List Nat) (j : JobRec)
    (h : (reconcileJob w j).status = "running") :
    reconcileJob w j = j ∧ j.status = "running" ∧
      w.contains j.id = true := by
  unfold reconcileJob at h ⊢
  cases hc : (j.status == "running" && !(w.contains j.id)) with
  | true =>
      rw [hc] at h
      exact absurd (show ("pending" : String) = "running" from h) (by decide)
  | false =>
      rw [hc] at h
      refine ⟨rfl, h, ?_⟩
      cases hw : w.contains j.id with
      | true => rfl
      | false =>
          have hj : j.status = "running" := h
          rw [hj, hw] at hc
          simp at hc

theorem eq_of_nodup_map_eq {α β : Type} (f : α → β) (l : List α)
    (hn : (l.map f).Nodup) (a : α) (ha : a ∈ l) (b : α) (hb : b ∈ l)
    (hfe : f a = f b) : a = b := by
  induction l with
  | nil => exact absurd ha (List.not_mem_nil a)
  | cons x t ih =>
      rw [List.map_cons, List.nodup_cons] at hn
      rcases List.mem_cons.mp ha with rfl | hat
      · rcases List.mem_cons.mp hb with rfl | hbt
        · rfl
        · exact absurd (hfe ▸ List.mem_map_of_mem f hbt) hn.1
      · rcases List.mem_cons.mp hb with rfl | hbt
        · exfalso
          apply hn.1
          rw [← hfe]
          exact List.mem_map_of_mem f hat
        · exact ih hn.2 hat hbt

theorem active_mem_client (client : Option RenderOracle) (pid : String)
    (h : (match client with
          | some c => activeIds c
          | none => ([] : List String)).contains pid = true) :
    ∃ c, client = some c ∧ pid ∈ activeIds c := by
  cases client with
  | none => simp [List.contains] at h
  | some c => exact ⟨c, rfl, List.elem_iff.mp h⟩

theorem reconciler_core (fs : String → Bool) (client : Option RenderOracle)
    (jobs : List JobRec) (segments : List Segment) (active : List String)
    (segs1 : List Segment) (withRunning : List Nat) (jobs2 : List JobRec)
    (segs2 : List Segment)
    (ha : active = match client with | some c => activeIds c | none => [])
    (h1 : segs1 = segments.map (reconcileSegment fs client active))
    (h2 : withRunning = segs1.filterMap fun s =>
      if s.status == "running" then some s.job_id else none)
    (h3 : jobs2 = jobs.map (reconcileJob withRunning))
    (h4 : segs2 = segs1.map (failSyncSegment jobs2 active))
    (hnodup : (jobs.map JobRec.id).Nodup) :
    (∀ s2 ∈ segs2, s2.status = "running" →
      (∃ c, client = some c ∧ ∃ pid, s2.comfyui_prompt_id = some pid ∧
        (c.historyCompleted pid = true ∨ pid ∈ activeIds c)) ∨
      (∃ vp, s2.video_path = some vp ∧ fs vp = true)) ∧
    List.Forall₂ (fun s s2 =>
      (s.status ≠ "running" → s2 = s) ∧
      (s.status = "running" → s2.status = "running" ∨ s2.status = "completed" ∨
        s2.status = "needs_recovery" ∨ s2.status = "pending" ∨
        s2.status = "failed")) segments segs2 ∧
    (∀ j2 ∈ jobs2, j2.status = "running" →
      ∃ s2 ∈ segs2, s2.job_id = j2.id ∧ s2.status = "running") := by
  have hids2 : jobs2.map JobRec.id = jobs.map JobRec.id := by
    rw [h3, List.map_map]
    exact List.map_congr_left fun a _ => recJob_id withRunning a
  refine ⟨?_, ?_, ?_⟩
  · intro s2 hs2 hrun
    rw [h4] at hs2
    obtain ⟨s1, hs1, rfl⟩ := List.mem_map.mp hs2
    rcases failSync_total jobs2 active s1 with heq | ⟨hfail, _⟩
    · rw [heq] at hrun ⊢
      rw [h1] at hs1
      obtain ⟨s0, _, rfl⟩ := List.mem_map.mp hs1
      rcases recSeg_total fs client active s0 with ⟨heq0, himp⟩ | hst
      · rw [heq0] at hrun ⊢
        obtain ⟨pid, hpid, hact⟩ := himp hrun
        rw [ha] at hact
        obtain ⟨c, hcl, hmem⟩ := active_mem_client client pid hact
        exact Or.inl ⟨c, hcl, pid, hpid, Or.inr hmem⟩
      · rcases hst with hx | hx | hx <;> rw [hx] at hrun <;>
          exact absurd hrun (by decide)
    · rw [hfail] at hrun
      exact absurd hrun (by decide)
  · rw [h4, h1, List.map_map]
    rw [List.forall₂_map_right_iff, List.forall₂_same]
    intro s hs
    constructor
    · intro hnr
      simp only [Function.comp_apply]
      rw [recSeg_skip fs client active s hnr, failSync_skip jobs2 active s hnr]
    · intro hr
      simp only [Function.comp_apply]
      rcases failSync_total jobs2 active (reconcileSegment fs client active s)
        with heq | ⟨hfail, _⟩
      · rw [heq]
        rcases recSeg_total fs client active s with ⟨heq0, _⟩ | hst
        · rw [heq0]
          exact Or.inl hr
        · rcases hst with hx | hx | hx
          · exact Or.inr (Or.inl hx)
          · exact Or.inr (Or.inr (Or.inl hx))
          · exact Or.inr (Or.inr (Or.inr (Or.inl hx)))
      · exact Or.inr (Or.inr (Or.inr (Or.inr hfail)))
  · intro j2 hj2 hrun
    rw [h3] at hj2
    obtain ⟨j, hj, rfl⟩ := List.mem_map.mp hj2
    obtain ⟨hjeq, hjrun, hcont⟩ := recJob_running withRunning j hrun
    have hin : j.id ∈ withRunning := List.elem_iff.mp hcont
    rw [h2] at hin
    obtain ⟨s1, hs1, hsome⟩ := List.mem_filterMap.mp hin
    have hs1c : s1.status = "running" ∧ s1.job_id = j.id := by
      cases hst : s1.status == "running" with
      | true =>
          rw [hst] at hsome
          simp only [ite_cond_true] at hsome
          exact ⟨eq_of_beq hst, Option.some.inj hsome⟩
      | false =>
          rw [hst] at hsome
          simp only [ite_cond_false] at hsome
          exact absurd hsome (by simp)
    have hnofail : jobs2.any
        (fun j3 => j3.id == s1.job_id && j3.status == "failed") = false := by
      cases hA : jobs2.any
          (fun j3 => j3.id == s1.job_id && j3.status == "failed") with
      | false => rfl
      | true =>
          exfalso
          obtain ⟨j3, hj3, hp⟩ := List.any_eq_true.mp hA
          have hand := Bool.and_eq_true_iff.mp hp
          have hid3 : j3.id = s1.job_id := eq_of_beq hand.1
          have hst3 : j3.status = "failed" := eq_of_beq hand.2
          have hnodup2 : (jobs2.map JobRec.id).Nodup := by
            rw [hids2]; exact hnodup
          have hj2mem : reconcileJob withRunning j ∈ jobs2 := by
            rw [h3]; exact List.mem_map_of_mem _ hj
          have hj3eq : j3 = reconcileJob withRunning j := by
            apply eq_of_nodup_map_eq JobRec.id jobs2 hnodup2 j3 hj3 _ hj2mem
            rw [hid3, hs1c.2, recJob_id]
          rw [hj3eq] at hst3
          rw [hst3] at hrun
          exact absurd hrun (by decide)
    have hfseq : failSyncSegment jobs2 active s1 = s1 := by
      unfold failSyncSegment
      split
      case isTrue hcond =>
          exfalso
          have := (Bool.and_eq_true_iff.mp (Bool.and_eq_true_iff.mp hcond).1).2
          rw [hnofail] at this
          exact absurd this (by decide)
      case isFalse _ => rfl
    refine ⟨failSyncSegment jobs2 active s1, ?_, ?_, ?_⟩
    · rw [h4]
      exact List.mem_map_of_mem _ hs1
    · rw [hfseq, recJob_id]
      exact hs1c.2
    · rw [hfseq]
      exact hs1c.1

/-- C5: after the startup reconciliation pass: every segment still
`running` has a prompt handle completed in the Renderer's history or
present in the Renderer's queue, or a local video file on disk (the
proof exhibits the queue disjunct, the only one the code actually keeps
`running`); every other previously-running segment moved to `completed`,
`needs_recovery`, `pending` or `failed` (rows that were not running are
untouched); and every job left `running` has at least one running
segment.  Job ids are assumed unique (the table's primary key). -/
theorem reconciler_invariants (fs : String → Bool)
    (client : Option RenderOracle) (jobs : List JobRec)
    (segments : List Segment) (hnodup : (jobs.map JobRec.id).Nodup) :
    (∀ s2 ∈ (reset_orphaned_running_jobs fs client jobs segments).2,
      s2.status = "running" →
      (∃ c, client = some c ∧ ∃ pid, s2.comfyui_prompt_id = some pid ∧
        (c.historyCompleted pid = true ∨ pid ∈ activeIds c)) ∨
      (∃ vp, s2.video_path = some vp ∧ fs vp = true)) ∧
    List.Forall₂ (fun s s2 =>
      (s.status ≠ "running" → s2 = s) ∧
      (s.status = "running" → s2.status = "running" ∨ s2.status = "completed" ∨
        s2.status = "needs_recovery" ∨ s2.status = "pending" ∨
        s2.status = "failed"))
      segments (reset_orphaned_running_jobs fs client jobs segments).2 ∧
    (∀ j2 ∈ (reset_orphaned_running_jobs fs client jobs segments).1,
      j2.status = "running" →
      ∃ s2 ∈ (reset_orphaned_running_jobs fs client jobs segments).2,
        s2.job_id = j2.id ∧ s2.status = "running") :=
  reconciler_core fs client jobs segments _ _ _ _ _ rfl rfl rfl rfl rfl hnodup

/-- Oracle of the C5 witness: an empty history, one queue entry holding
prompt id `p1`. -/
def c5Client : RenderOracle :=
  { historyCompleted := fun _ => false,
    queue_running := [["1", "p1"]],
    queue_pending := [] }

/-- Jobs of the C5 witness: one running job. -/
def c5Jobs : List JobRec :=
  [{ id := 1, status := "running", priority := 1, error_message := none,
     comfyui_prompt_id := none, output_images := none, started_at := none,
     completed_at := none }]

/-- Segments of the C5 witness: one running segment on prompt `p1`. -/
def c5Segs : List Segment :=
  [{ blankSeg 1 0 "running" with comfyui_prompt_id := some "p1" }]

/-- Witness for C5 at a concrete state. -/
theorem reconciler_invariants_witness :
    (∀ s2 ∈ (reset_orphaned_running_jobs (fun _ => false) (some c5Client)
        c5Jobs c5Segs).2,
      s2.status = "running" →
      (∃ c, some c5Client = some c ∧
        ∃ pid, s2.comfyui_prompt_id = some pid ∧
          (c.historyCompleted pid = true ∨ pid ∈ activeIds c)) ∨
      (∃ vp, s2.video_path = some vp ∧ (fun _ => false : String → Bool) vp = true)) ∧
    List.Forall₂ (fun s s2 =>
      (s.status ≠ "running" → s2 = s) ∧
      (s.status = "running" → s2.status = "running" ∨ s2.status = "completed" ∨
        s2.status = "needs_recovery" ∨ s2.status = "pending" ∨
        s2.status = "failed"))
      c5Segs (reset_orphaned_running_jobs (fun _ => false) (some c5Client)
        c5Jobs c5Segs).2 ∧
    (∀ j2 ∈ (reset_orphaned_running_jobs (fun _ => false) (some c5Client)
        c5Jobs c5Segs).1,
      j2.status = "running" →
      ∃ s2 ∈ (reset_orphaned_running_jobs (fun _ => false) (some c5Client)
          c5Jobs c5Segs).2,
        s2.job_id = j2.id ∧ s2.status = "running") :=
  reconciler_invariants (fun _ => false) (some c5Client) c5Jobs c5Segs
    (by decide)

end Wan22
